import Mathlib

/-!
Verification of the syntax text box widget adapter
(`src/examples/editor-libcosmic/src/syntax_text_box.rs`) and the text
engine interface it exercises.  Rust integer/float values are embedded as
`Int`/`ℚ`; the `i32` cast of an `f32` is truncation toward zero with
saturation at the `i32` bounds.
-/

namespace SyntaxTextBox

/-- Truncation of a rational toward zero, the rounding used by Rust's
float-to-integer `as` casts. -/
def rtz (q : ℚ) : Int :=
  q.num.tdiv q.den

/-- Rust's `as i32` cast from a float value (modelled exactly on ℚ):
truncation toward zero, saturating at the `i32` range. -/
def f32_as_i32 (q : ℚ) : Int :=
  max (-2147483648) (min 2147483647 (rtz q))

/-- An RGBA color with 8-bit channels, as produced by the text engine
(`color.r()`, `.g()`, `.b()`, `.a()` in the draw callback). -/
structure Color8 where
  r : Nat
  g : Nat
  b : Nat
  a : Nat
deriving Repr, DecidableEq

/-- A draw primitive `(x, y, w, h, color)` handed by the editor to the
draw callback. -/
structure Prim where
  x : Int
  y : Int
  w : Int
  h : Int
  color : Color8
deriving Repr, DecidableEq

/-- A point in host (f32) coordinates. -/
structure Point where
  x : ℚ
  y : ℚ
deriving Repr, DecidableEq

/-- An axis-aligned rectangle in host (f32) coordinates, used for the
widget's layout bounds and the current viewport. -/
structure Rect where
  x : ℚ
  y : ℚ
  width : ℚ
  height : ℚ
deriving Repr, DecidableEq

/-- Containment test of the host toolkit (`Rectangle::contains`): the
left/top edges are inclusive, the right/bottom edges exclusive. -/
def Rect.contains (r : Rect) (p : Point) : Bool :=
  decide (r.x ≤ p.x) && decide (p.x < r.x + r.width) &&
  decide (r.y ≤ p.y) && decide (p.y < r.y + r.height)

/-- Event status returned to the host from `on_event`. -/
inductive Status where
  | Ignored
  | Captured
deriving Repr, DecidableEq

/-- Mouse buttons of the host event stream. -/
inductive MouseButton where
  | LeftButton
  | RightButton
  | MiddleButton
  | OtherButton
deriving Repr, DecidableEq

/-- The key codes the adapter's `on_event` distinguishes; every other key
code falls into `OtherKey` (the wildcard arm of the Rust `match`). -/
inductive KeyCode where
  | Left
  | Right
  | Up
  | Down
  | Home
  | End
  | PageUp
  | PageDown
  | Enter
  | Backspace
  | Delete
  | OtherKey
deriving Repr, DecidableEq

/-- A mouse wheel delta: either whole lines or pixels. -/
inductive ScrollDelta where
  | Lines (x y : ℚ)
  | Pixels (x y : ℚ)
deriving Repr, DecidableEq

/-- The host events the adapter's `on_event` matches on; every unmatched
event falls into `OtherEvent` (the wildcard arm). -/
inductive Event where
  | KeyPressed (key_code : KeyCode)
  | CharacterReceived (character : Char)
  | ButtonPressed (button : MouseButton)
  | ButtonReleased (button : MouseButton)
  | CursorMoved
  | WheelScrolled (delta : ScrollDelta)
  | OtherEvent
deriving Repr, DecidableEq

/-- The editor actions of `cosmic_text::Action` dispatched by the
adapter. -/
inductive Action where
  | Left
  | Right
  | Up
  | Down
  | Home
  | End
  | PageUp
  | PageDown
  | Enter
  | Backspace
  | Delete
  | Insert (character : Char)
  | Click (x y : Int)
  | Drag (x y : Int)
  | Scroll (lines : Int)
deriving Repr, DecidableEq

/-- A logical line of the buffer: raw text plus the optional cached
shaped layout (a list of visual sub-lines, each a list of glyphs;
glyphs are modelled by their character). `layout_opt = none` means the
line's shaping state is stale. -/
structure Line where
  text : List Char
  layout_opt : Option (List (List Char))
deriving Repr, DecidableEq

/-- The text buffer of the editor: logical lines, the current size set
by `set_size`, the metrics' line height, and the vertical scroll
position in logical lines. -/
structure Buffer where
  lines : List Line
  width : Int
  height : Int
  line_height : Int
  scroll : Int
deriving Repr, DecidableEq

/-- The syntax editor as seen by the adapter: its buffer, plus the trace
of dispatched actions.  The action state machine itself lives in
`cosmic_text` (outside the adapter source), so the model records each
`editor.action(...)` call; the adapter-level claims are about which
actions are dispatched, never about their internal effect. -/
structure Editor where
  buffer : Buffer
  trace : List Action
deriving Repr, DecidableEq

/-- Dispatching one action to the editor (`editor.action(...)`):
recorded on the trace. -/
def Editor.action (e : Editor) (a : Action) : Editor :=
  { e with trace := e.trace ++ [a] }

/-- The adapter's per-widget state (`State`): the dragging flag.  The
`SwashCache` field is the external glyph rasterizer's memo, only passed
through to `editor.draw`; it is not modelled. -/
structure WidgetState where
  is_dragging : Bool
deriving Repr, DecidableEq

/-- Result of `on_event`: the editor after any dispatched action, the
widget state, and the returned status. -/
structure OnEventResult where
  editor : Editor
  state : WidgetState
  status : Status
deriving Repr, DecidableEq

/-- The adapter's `on_event`, translated arm by arm from the Rust
`match`: `status` starts as `Ignored` and each handled arm sets it to
`Captured`. -/
def on_event (editor : Editor) (state : WidgetState) (event : Event)
    (bounds : Rect) (cursor_position : Point) : OnEventResult :=
  match event with
  | .KeyPressed key_code =>
    match key_code with
    | .Left => ⟨editor.action .Left, state, .Captured⟩
    | .Right => ⟨editor.action .Right, state, .Captured⟩
    | .Up => ⟨editor.action .Up, state, .Captured⟩
    | .Down => ⟨editor.action .Down, state, .Captured⟩
    | .Home => ⟨editor.action .Home, state, .Captured⟩
    | .End => ⟨editor.action .End, state, .Captured⟩
    | .PageUp => ⟨editor.action .PageUp, state, .Captured⟩
    | .PageDown => ⟨editor.action .PageDown, state, .Captured⟩
    | .Enter => ⟨editor.action .Enter, state, .Captured⟩
    | .Backspace => ⟨editor.action .Backspace, state, .Captured⟩
    | .Delete => ⟨editor.action .Delete, state, .Captured⟩
    | .OtherKey => ⟨editor, state, .Ignored⟩
  | .CharacterReceived character =>
    ⟨editor.action (.Insert character), state, .Captured⟩
  | .ButtonPressed button =>
    match button with
    | .LeftButton =>
      if bounds.contains cursor_position then
        ⟨editor.action (.Click (f32_as_i32 (cursor_position.x - bounds.x))
            (f32_as_i32 (cursor_position.y - bounds.y))),
         { state with is_dragging := true }, .Captured⟩
      else
        ⟨editor, state, .Ignored⟩
    | _ => ⟨editor, state, .Ignored⟩
  | .ButtonReleased button =>
    match button with
    | .LeftButton => ⟨editor, { state with is_dragging := false }, .Captured⟩
    | _ => ⟨editor, state, .Ignored⟩
  | .CursorMoved =>
    if state.is_dragging then
      ⟨editor.action (.Drag (f32_as_i32 (cursor_position.x - bounds.x))
          (f32_as_i32 (cursor_position.y - bounds.y))),
       state, .Captured⟩
    else
      ⟨editor, state, .Ignored⟩
  | .WheelScrolled delta =>
    match delta with
    | .Lines _ y => ⟨editor.action (.Scroll (f32_as_i32 (-y * 6))), state, .Captured⟩
    | .Pixels _ _ => ⟨editor, state, .Ignored⟩
  | .OtherEvent => ⟨editor, state, .Ignored⟩

/-- Modelled from the spec: the Line Shaper's wrap loop for one logical
line (§4.2, the shaper itself lives in `cosmic_text`, outside the
adapter source).  Glyphs are modelled unit-width, so the wrap policy
"break at the last fitting glyph boundary within width" becomes greedy
chunking into sub-lines of at most `w` glyphs; `w ≥ 1` so a glyph never
fits nowhere.  Deterministic in (text, width) as §4.2 requires. -/
def shapeLineGo (w : Nat) (cur : List Char) (curLen : Nat) :
    List Char → List (List Char)
  | [] => [cur.reverse]
  | c :: cs =>
    if curLen < w then shapeLineGo w (c :: cur) (curLen + 1) cs
    else cur.reverse :: shapeLineGo w [c] 1 cs

/-- Modelled from the spec: shaping one logical line at the buffer's
current width into its visual sub-lines (§4.2).  An empty line still
yields one (empty) sub-line. -/
def shapeLine (text : List Char) (width : Int) : List (List Char) :=
  shapeLineGo (max 1 width.toNat) [] 0 text

/-- Modelled from the spec: the walk of `shape_until` (§4.2) — "shapes
lines lazily from the first stale line forward, stopping once
`line_limit` visual sub-lines have been produced or no stale lines
remain".  `produced` counts the sub-lines produced so far in this
call. -/
def shapeUntilGo (w : Int) (limit : Int) (produced : Nat) :
    List Line → List Line
  | [] => []
  | l :: ls =>
    match l.layout_opt with
    | some _ => l :: shapeUntilGo w limit produced ls
    | none =>
      if limit ≤ (produced : Int) then l :: ls
      else
        let lay := shapeLine l.text w
        { l with layout_opt := some lay } ::
          shapeUntilGo w limit (produced + lay.length) ls

/-- Modelled from the spec: `Buffer::shape_until(line_limit)` (§4.2,
implemented in `cosmic_text`, outside the adapter source). -/
def Buffer.shape_until (b : Buffer) (limit : Int) : Buffer :=
  { b with lines := shapeUntilGo b.width limit 0 b.lines }

/-- Modelled from the spec: `Buffer::set_size` — the shaping state of a
line must stay "consistent with its current text + style spans + current
viewport width, OR … explicitly marked stale" (§3), so a width change
marks every cached layout stale; a pure height change keeps them. -/
def Buffer.set_size (b : Buffer) (w h : Int) : Buffer :=
  if w = b.width then
    { b with height := h }
  else
    { b with width := w, height := h,
             lines := b.lines.map fun l => { l with layout_opt := none } }

/-- Number of logical lines intersecting the viewport plus a one-line
lookahead, from the buffer height and line height. -/
def Buffer.visibleLines (b : Buffer) : Int :=
  b.height / max 1 b.line_height + 1

/-- First logical line of the window read by the draw pass. -/
def Buffer.windowLo (b : Buffer) : Int := b.scroll

/-- One past the last logical line of the window read by the draw
pass. -/
def Buffer.windowHi (b : Buffer) : Int := b.scroll + b.visibleLines

/-- Modelled from the spec: the walk of `shape_as_needed` — shape
exactly the stale lines whose index lies in the window `[lo, hi)`
("only lines intersecting the current viewport plus a small lookahead",
§4.2); `i` is the index of the head line. -/
def shapeWindowGo (w lo hi : Int) (i : Int) : List Line → List Line
  | [] => []
  | l :: ls =>
    (match l.layout_opt with
     | none =>
       if lo ≤ i ∧ i < hi then { l with layout_opt := some (shapeLine l.text w) }
       else l
     | some _ => l) :: shapeWindowGo w lo hi (i + 1) ls

/-- Modelled from the spec: `shape_as_needed()` (§4.2, implemented in
`cosmic_text`, outside the adapter source) — called every draw, shapes
only the stale lines of the visible window. -/
def Buffer.shape_as_needed (b : Buffer) : Buffer :=
  { b with lines := shapeWindowGo b.width b.windowLo b.windowHi 0 b.lines }

/-- Modelled from the spec: the color of one anti-aliased glyph
contribution, a deterministic function of the glyph (§4.2 determinism);
the concrete channel values stand in for rasterized coverage. -/
def glyphColor (c : Char) : Color8 :=
  ⟨c.toNat % 256, c.toNat / 256 % 256, c.toNat / 65536 % 256, 255⟩

/-- Modelled from the spec: the per-glyph primitives of one sub-line,
left to right (§4.4) — each glyph one 1×1 pixel contribution. -/
def emitGlyphs (x y : Int) : List Char → List Prim
  | [] => []
  | c :: cs => ⟨x, y, 1, 1, glyphColor c⟩ :: emitGlyphs (x + 1) y cs

/-- Modelled from the spec: the primitives of one shaped layout, its
sub-lines top to bottom; `row` is the visual row of the first
sub-line. -/
def emitLayout (lh : Int) (row : Int) : List (List Char) → List Prim
  | [] => []
  | sub :: subs => emitGlyphs 0 (row * lh) sub ++ emitLayout lh (row + 1) subs

/-- Modelled from the spec: the Draw Emitter's walk (§4.4) — visible
window lines top to bottom, each shaped line contributing its layout's
primitives; a line with no cached layout contributes nothing (the case
§3 forbids the pass from reaching). -/
def emitLines (lh lo hi : Int) (i : Int) (row : Int) : List Line → List Prim
  | [] => []
  | l :: ls =>
    if lo ≤ i ∧ i < hi then
      match l.layout_opt with
      | some lay => emitLayout lh row lay ++ emitLines lh lo hi (i + 1) (row + lay.length) ls
      | none => emitLines lh lo hi (i + 1) row ls
    else
      emitLines lh lo hi (i + 1) row ls

/-- Modelled from the spec: `editor.draw(cache, emit_fn)`'s primitive
sequence (§4.4), a deterministic function of the buffer state. -/
def Buffer.emitPrims (b : Buffer) : List Prim :=
  emitLines b.line_height b.windowLo b.windowHi 0 0 b.lines

/-- Whether the Draw Emitter's walk would read a stale shaped layout:
some line of the visible window has `layout_opt = none`. -/
def staleReadsGo (lo hi : Int) (i : Int) : List Line → Bool
  | [] => false
  | l :: ls =>
    (decide (lo ≤ i) && decide (i < hi) && l.layout_opt.isNone) ||
      staleReadsGo lo hi (i + 1) ls

/-- Whether the draw pass over `b` would read a stale shaped layout. -/
def Buffer.staleReads (b : Buffer) : Bool :=
  staleReadsGo b.windowLo b.windowHi 0 b.lines

/-- A host color with float channels in `[0, 1]`, as built by
`Color::from_rgba8`. -/
structure QColor where
  r : ℚ
  g : ℚ
  b : ℚ
  a : ℚ
deriving Repr, DecidableEq

/-- The host's `Color::from_rgba8(r, g, b, a / 255.0)` conversion used
for quad colors in the draw callback. -/
def from_rgba8 (c : Color8) : QColor :=
  ⟨(c.r : ℚ) / 255, (c.g : ℚ) / 255, (c.b : ℚ) / 255, (c.a : ℚ) / 255⟩

/-- The fully transparent host color (`Color::TRANSPARENT`). -/
def transparentColor : QColor := ⟨0, 0, 0, 0⟩

/-- A filled quad handed to the host's quad renderer (`renderer::Quad`
with its bounds, border fields and fill color). -/
structure Quad where
  x : ℚ
  y : ℚ
  width : ℚ
  height : ℚ
  border_radius : ℚ
  border_width : ℚ
  border_color : QColor
  color : QColor
deriving Repr, DecidableEq

/-- Modelled from the spec: `text::draw_pixel` (module `super::text`,
whose source is not under `src/`).  A 1×1 primitive "must be composited
(not overwritten) onto the destination surface" (§4.4); modelled as
source-over alpha blending of the RGBA byte quadruple at `(x, y)` in the
row-major byte buffer, ignoring coordinates outside the view
rectangle. -/
def draw_pixel (pixels : List Nat) (view_w view_h : Int) (x y : Int)
    (c : Color8) : List Nat :=
  if 0 ≤ x ∧ x < view_w ∧ 0 ≤ y ∧ y < view_h then
    let i := (y * view_w + x).toNat * 4
    let blend := fun (dst src : Nat) => (src * c.a + dst * (255 - c.a)) / 255
    let p0 := pixels.set i (blend (pixels.getD i 0) c.r)
    let p1 := p0.set (i + 1) (blend (pixels.getD (i + 1) 0) c.g)
    let p2 := p1.set (i + 2) (blend (pixels.getD (i + 2) 0) c.b)
    p2.set (i + 3) (min 255 (c.a + pixels.getD (i + 3) 0 * (255 - c.a) / 255))
  else
    pixels

/-- The output accumulated by the draw callback: the quads emitted to
the host renderer, in order, and the CPU pixel buffer. -/
structure DrawAcc where
  quads : List Quad
  pixels : List Nat
deriving Repr, DecidableEq

/-- The adapter's draw callback (the closure passed to `editor.draw`),
handling one primitive: degenerate primitives are dropped; primitives
larger than 1×1 become one filled quad at the widget position plus the
primitive offset; 1×1 primitives are composited into the pixel
buffer. -/
def callbackStep (px py : ℚ) (view_w view_h : Int) (acc : DrawAcc)
    (p : Prim) : DrawAcc :=
  if p.w ≤ 0 ∨ p.h ≤ 0 then
    acc
  else if 1 < p.w ∨ 1 < p.h then
    { acc with quads := acc.quads ++
        [⟨px + (p.x : ℚ), py + (p.y : ℚ), (p.w : ℚ), (p.h : ℚ), 0, 0,
          transparentColor, from_rgba8 p.color⟩] }
  else
    { acc with pixels := draw_pixel acc.pixels view_w view_h p.x p.y p.color }

/-- Result of the adapter's `draw`: the editor as left by the draw pass
(its buffer resized and re-shaped) and the emitted output. -/
structure DrawResult where
  editor : Editor
  quads : List Quad
  pixels : List Nat
deriving Repr, DecidableEq

/-- The adapter's `draw`: clamp the buffer size to
`min(viewport, layout bounds)` (both dimensions cast to `i32`), call
`shape_as_needed`, then run `editor.draw` with the callback over a fresh
zeroed pixel buffer of `view_w * view_h * 4` bytes.  `bounds` is the
widget's layout bounds; its origin is `layout.position()`. -/
def widgetDraw (e : Editor) (bounds viewport : Rect) : DrawResult :=
  let view_w := min (f32_as_i32 viewport.width) (f32_as_i32 bounds.width)
  let view_h := min (f32_as_i32 viewport.height) (f32_as_i32 bounds.height)
  let b1 := e.buffer.set_size view_w view_h
  let b2 := b1.shape_as_needed
  let init : DrawAcc := ⟨[], List.replicate (view_w.toNat * view_h.toNat * 4) 0⟩
  let out := b2.emitPrims.foldl (callbackStep bounds.x bounds.y view_w view_h) init
  ⟨{ e with buffer := b2 }, out.quads, out.pixels⟩

/-- The adapter's `layout`: shape up to `i32::max_value()` sub-lines,
then accumulate `layout.len()` over every line with a cached layout
(`layout_lines`), and report `layout_lines * line_height` as the content
height.  Returns the content height and the editor as left by the
pass. -/
def widgetLayout (e : Editor) : ℚ × Editor :=
  let b := e.buffer.shape_until 2147483647
  let layout_lines : Nat := b.lines.foldl
    (fun acc l =>
      match l.layout_opt with
      | some lay => acc + lay.length
      | none => acc) 0
  let height := (layout_lines : ℚ) * (b.line_height : ℚ)
  (height, { e with buffer := b })

/-- Sub-line count a line contributes to the content height: the length
of its cached layout, zero when the layout is stale. -/
def Line.subLines (l : Line) : Nat :=
  (l.layout_opt.map List.length).getD 0

/-- Total number of shaped visual sub-lines across a line list. -/
def totalSubLines (ls : List Line) : Nat :=
  (ls.map Line.subLines).sum

/-- Sub-lines that `shape_until` would still have to produce: the length
of the would-be layout of every stale line. -/
def pendingSubLines (w : Int) : List Line → Nat
  | [] => 0
  | l :: ls =>
    (match l.layout_opt with
     | some _ => 0
     | none => (shapeLine l.text w).length) + pendingSubLines w ls

/-! Concrete fixtures used by the witnesses and counterexamples. -/

/-- A concrete editor: two lines, one already shaped, width 8. -/
def testEditor : Editor :=
  ⟨⟨[⟨['a', 'b'], none⟩, ⟨['c'], some [['c']]⟩], 8, 40, 20, 0⟩, []⟩

/-- A concrete widget layout bounds rectangle at the origin. -/
def testBounds : Rect := ⟨0, 0, 100, 50⟩

/-- A concrete cursor position inside `testBounds`. -/
def testPoint : Point := ⟨10, 20⟩

/-- A concrete cursor position outside `testBounds`. -/
def outsidePoint : Point := ⟨200, 20⟩

theorem testBounds_contains : Rect.contains ⟨0, 0, 100, 50⟩ ⟨10, 20⟩ = true := by
  norm_num [Rect.contains]

theorem testBounds_not_contains :
    Rect.contains ⟨0, 0, 100, 50⟩ ⟨200, 20⟩ = false := by
  norm_num [Rect.contains]

theorem f32_eval_ten : f32_as_i32 (10 : ℚ) = 10 := by decide

theorem f32_eval_twenty : f32_as_i32 (20 : ℚ) = 20 := by decide

/-! Claims. -/

/-- Claim C1: a primitive with non-positive width or height passed to the
draw callback is suppressed — no quad is emitted and no pixel is written
to the pixel buffer (the callback returns the accumulator unchanged). -/
theorem callback_suppresses_degenerate (px py : ℚ) (view_w view_h : Int)
    (acc : DrawAcc) (p : Prim) (h : p.w ≤ 0 ∨ p.h ≤ 0) :
    callbackStep px py view_w view_h acc p = acc := by
  unfold callbackStep
  rw [if_pos h]

theorem callback_suppresses_degenerate_witness :
    callbackStep 0 0 8 8 ⟨[], List.replicate 256 0⟩ ⟨3, 4, 0, 5, ⟨1, 2, 3, 4⟩⟩ =
      ⟨[], List.replicate 256 0⟩ :=
  callback_suppresses_degenerate 0 0 8 8 ⟨[], List.replicate 256 0⟩
    ⟨3, 4, 0, 5, ⟨1, 2, 3, 4⟩⟩ (by decide)

/-- Claim C2: a non-degenerate primitive (positive width and height) with
width > 1 or height > 1 is emitted as exactly one filled quad at the
widget position plus the primitive offset, with the primitive's size and
color, leaving the pixel buffer alone; otherwise (width = height = 1) it
is composited into the CPU pixel buffer and no quad is emitted. -/
theorem callback_dispatch_by_size (px py : ℚ) (view_w view_h : Int)
    (acc : DrawAcc) (p : Prim) (hw : 0 < p.w) (hh : 0 < p.h) :
    (1 < p.w ∨ 1 < p.h →
      callbackStep px py view_w view_h acc p =
        { acc with quads := acc.quads ++
            [⟨px + (p.x : ℚ), py + (p.y : ℚ), (p.w : ℚ), (p.h : ℚ), 0, 0,
              transparentColor, from_rgba8 p.color⟩] }) ∧
    (p.w = 1 ∧ p.h = 1 →
      callbackStep px py view_w view_h acc p =
        { acc with pixels :=
            draw_pixel acc.pixels view_w view_h p.x p.y p.color }) := by
  constructor
  · intro hbig
    unfold callbackStep
    rw [if_neg (by omega), if_pos hbig]
  · intro hone
    unfold callbackStep
    rw [if_neg (by omega), if_neg (by omega)]

theorem callback_dispatch_by_size_witness :
    callbackStep 0 0 2 2 ⟨[], List.replicate 16 0⟩ ⟨0, 0, 3, 1, ⟨255, 0, 0, 255⟩⟩ =
      ⟨[⟨0 + ((0 : Int) : ℚ), 0 + ((0 : Int) : ℚ), ((3 : Int) : ℚ), ((1 : Int) : ℚ), 0, 0,
          transparentColor, from_rgba8 ⟨255, 0, 0, 255⟩⟩],
        List.replicate 16 0⟩ ∧
    callbackStep 0 0 2 2 ⟨[], List.replicate 16 0⟩ ⟨1, 0, 1, 1, ⟨255, 0, 0, 255⟩⟩ =
      ⟨[], draw_pixel (List.replicate 16 0) 2 2 1 0 ⟨255, 0, 0, 255⟩⟩ :=
  ⟨(callback_dispatch_by_size 0 0 2 2 ⟨[], List.replicate 16 0⟩
      ⟨0, 0, 3, 1, ⟨255, 0, 0, 255⟩⟩ (by decide) (by decide)).1 (by decide),
   (callback_dispatch_by_size 0 0 2 2 ⟨[], List.replicate 16 0⟩
      ⟨1, 0, 1, 1, ⟨255, 0, 0, 255⟩⟩ (by decide) (by decide)).2 (by decide)⟩

/-- Claim C3, counterexample: handling a left press inside the bounds
dispatches `Click` at the hit point but the widget IS in the dragging
state afterwards — the handler sets `is_dragging` to `true` in the same
arm, contradicting "the widget state machine is not in the dragging
state". -/
theorem click_sets_dragging_counterexample :
    (on_event testEditor ⟨false⟩ (.ButtonPressed .LeftButton) testBounds
        testPoint).editor.trace = [.Click 10 20] ∧
    (on_event testEditor ⟨false⟩ (.ButtonPressed .LeftButton) testBounds
        testPoint).state.is_dragging = true := by
  constructor <;>
    simp [on_event, testBounds_contains, testEditor, testBounds, testPoint,
      Editor.action, f32_eval_ten, f32_eval_twenty]

/-- Claim C3 as amended: handling a left press inside the bounds
dispatches exactly one `Click` action at the widget-relative hit point
and immediately enters the dragging state (`is_dragging := true`);
status is `Captured`. -/
theorem click_enters_dragging (e : Editor) (st : WidgetState)
    (bounds : Rect) (pos : Point) (h : bounds.contains pos = true) :
    (on_event e st (.ButtonPressed .LeftButton) bounds pos).editor.trace =
      e.trace ++ [.Click (f32_as_i32 (pos.x - bounds.x))
        (f32_as_i32 (pos.y - bounds.y))] ∧
    (on_event e st (.ButtonPressed .LeftButton) bounds pos).state.is_dragging
      = true ∧
    (on_event e st (.ButtonPressed .LeftButton) bounds pos).status
      = .Captured := by
  refine ⟨?_, ?_, ?_⟩ <;> simp [on_event, h, Editor.action]

theorem click_enters_dragging_witness :
    (on_event testEditor ⟨false⟩ (.ButtonPressed .LeftButton) testBounds
        testPoint).editor.trace =
      testEditor.trace ++ [.Click (f32_as_i32 (testPoint.x - testBounds.x))
        (f32_as_i32 (testPoint.y - testBounds.y))] ∧
    (on_event testEditor ⟨false⟩ (.ButtonPressed .LeftButton) testBounds
        testPoint).state.is_dragging = true ∧
    (on_event testEditor ⟨false⟩ (.ButtonPressed .LeftButton) testBounds
        testPoint).status = .Captured :=
  click_enters_dragging testEditor ⟨false⟩ testBounds testPoint
    testBounds_contains

/-- Claim C4: a cursor-move event handled while `is_dragging` is false
performs no editor action, leaves the editor and the widget state
unchanged, and returns `Ignored` — `Drag` is never dispatched outside
the dragging state. -/
theorem drag_ignored_when_not_dragging (e : Editor) (st : WidgetState)
    (bounds : Rect) (pos : Point) (h : st.is_dragging = false) :
    on_event e st .CursorMoved bounds pos = ⟨e, st, .Ignored⟩ := by
  simp [on_event, h]

theorem drag_ignored_when_not_dragging_witness :
    on_event testEditor ⟨false⟩ .CursorMoved testBounds testPoint =
      ⟨testEditor, ⟨false⟩, .Ignored⟩ :=
  drag_ignored_when_not_dragging testEditor ⟨false⟩ testBounds testPoint rfl

/-- Claim C9: a wheel event with a line delta `{x, y}` dispatches exactly
one `Scroll` action with line count `-y * 6` truncated to an integer,
with status `Captured` and the widget state untouched; a wheel event
with a pixel delta dispatches no action and leaves the status
`Ignored`. -/
theorem wheel_scroll_dispatch (e : Editor) (st : WidgetState)
    (bounds : Rect) (pos : Point) (x y : ℚ) :
    on_event e st (.WheelScrolled (.Lines x y)) bounds pos =
      ⟨e.action (.Scroll (f32_as_i32 (-y * 6))), st, .Captured⟩ ∧
    (on_event e st (.WheelScrolled (.Lines x y)) bounds pos).editor.trace =
      e.trace ++ [.Scroll (f32_as_i32 (-y * 6))] ∧
    on_event e st (.WheelScrolled (.Pixels x y)) bounds pos =
      ⟨e, st, .Ignored⟩ :=
  ⟨rfl, rfl, rfl⟩

/-- Claim C10: a left press with the cursor outside the layout bounds
dispatches no action, leaves the editor, the dragging flag and the rest
of the widget state unchanged, and returns `Ignored`; a press inside
dispatches `Click` at the cursor position translated relative to the
widget origin. -/
theorem press_dispatch_by_bounds (e : Editor) (st : WidgetState)
    (bounds : Rect) (pos : Point) :
    (bounds.contains pos = false →
      on_event e st (.ButtonPressed .LeftButton) bounds pos =
        ⟨e, st, .Ignored⟩) ∧
    (bounds.contains pos = true →
      (on_event e st (.ButtonPressed .LeftButton) bounds pos).editor.trace =
        e.trace ++ [.Click (f32_as_i32 (pos.x - bounds.x))
          (f32_as_i32 (pos.y - bounds.y))]) := by
  constructor <;> intro h <;> simp [on_event, h, Editor.action]

theorem press_dispatch_by_bounds_witness :
    on_event testEditor ⟨false⟩ (.ButtonPressed .LeftButton) testBounds
        outsidePoint = ⟨testEditor, ⟨false⟩, .Ignored⟩ ∧
    (on_event testEditor ⟨false⟩ (.ButtonPressed .LeftButton) testBounds
        testPoint).editor.trace =
      testEditor.trace ++ [.Click (f32_as_i32 (testPoint.x - testBounds.x))
        (f32_as_i32 (testPoint.y - testBounds.y))] :=
  ⟨(press_dispatch_by_bounds testEditor ⟨false⟩ testBounds outsidePoint).1
      testBounds_not_contains,
   (press_dispatch_by_bounds testEditor ⟨false⟩ testBounds testPoint).2
      testBounds_contains⟩

/-- Accumulating `layout.len()` over the lines with a cached layout, as
the `for` loop of the adapter's `layout` does, equals the accumulator
plus the total sub-line count. -/
theorem layout_lines_foldl (ls : List Line) (acc : Nat) :
    ls.foldl
      (fun acc l =>
        match l.layout_opt with
        | some lay => acc + lay.length
        | none => acc) acc = acc + totalSubLines ls := by
  induction ls generalizing acc with
  | nil => simp [totalSubLines]
  | cons l ls ih =>
    cases h : l.layout_opt with
    | none =>
      simp [List.foldl_cons, h, ih, totalSubLines, Line.subLines]
    | some lay =>
      simp [List.foldl_cons, h, ih, totalSubLines, Line.subLines]
      omega

/-- Claim C5: the content height computed by the adapter's `layout`
equals the total number of shaped visual sub-lines across all lines of
the buffer (a line with no cached layout contributing zero) times the
buffer's line height. -/
theorem layout_content_height (e : Editor) :
    (widgetLayout e).1 =
      (totalSubLines (widgetLayout e).2.buffer.lines : ℚ) *
        ((widgetLayout e).2.buffer.line_height : ℚ) := by
  unfold widgetLayout
  simp only [layout_lines_foldl, Nat.zero_add]

/-- Shaping a line always produces at least one visual sub-line. -/
theorem shapeLineGo_ne_nil (w : Nat) (cur : List Char) (curLen : Nat)
    (t : List Char) : shapeLineGo w cur curLen t ≠ [] := by
  induction t generalizing cur curLen with
  | nil => simp [shapeLineGo]
  | cons c cs ih =>
    unfold shapeLineGo
    split
    · exact ih _ _
    · simp

theorem shapeLine_length_pos (t : List Char) (w : Int) :
    1 ≤ (shapeLine t w).length := by
  have h := shapeLineGo_ne_nil (max 1 w.toNat) [] 0 t
  unfold shapeLine
  cases hs : shapeLineGo (max 1 w.toNat) [] 0 t with
  | nil => exact absurd hs h
  | cons a as => simp

/-- The walk of `shape_until` shapes every stale line when the limit is
not exhausted: if the sub-lines still pending fit under the limit
(counting the `produced` sub-lines already made), every line of the
result carries a cached layout or did already. -/
theorem shapeUntilGo_all_shaped (w limit : Int) (ls : List Line)
    (produced : Nat)
    (hfit : (produced : Int) + (pendingSubLines w ls : Int) ≤ limit) :
    ∀ l ∈ shapeUntilGo w limit produced ls, l.layout_opt.isSome := by
  induction ls generalizing produced with
  | nil => simp [shapeUntilGo]
  | cons l ls ih =>
    cases h : l.layout_opt with
    | some lay =>
      intro l' hl'
      simp only [shapeUntilGo, h, List.mem_cons] at hl'
      rcases hl' with rfl | hl'
      · simp [h]
      · exact ih produced (by simp [pendingSubLines, h] at hfit; omega) l' hl'
    | none =>
      have hlen := shapeLine_length_pos l.text w
      have hpend : pendingSubLines w (l :: ls) =
          (shapeLine l.text w).length + pendingSubLines w ls := by
        simp [pendingSubLines, h]
      have hlt : ¬ limit ≤ (produced : Int) := by
        rw [hpend] at hfit
        push_cast at hfit
        omega
      intro l' hl'
      simp only [shapeUntilGo, h, if_neg hlt, List.mem_cons] at hl'
      rcases hl' with rfl | hl'
      · simp
      · refine ih (produced + (shapeLine l.text w).length) ?_ l' hl'
        rw [hpend] at hfit
        push_cast at hfit ⊢
        omega

/-- A concrete stale document: four logical lines of 25 glyphs each at
buffer width 10, so shaping produces three sub-lines per line, twelve in
total — more than fit in the 2-line viewport. -/
def bigEditor : Editor :=
  ⟨⟨[⟨List.replicate 25 'a', none⟩, ⟨List.replicate 25 'b', none⟩,
     ⟨List.replicate 25 'c', none⟩, ⟨List.replicate 25 'd', none⟩],
    10, 40, 20, 0⟩, []⟩

/-- Claim C7, counterexample: on a concrete stale four-line document the
adapter's `layout` shapes every line of the document — all twelve visual
sub-lines are produced even though the viewport shows two — because it
calls `shape_until` with `line_limit = i32::MAX` (the code notes lazy
shaping as a TODO): the content height is not estimated "without eagerly
shaping the whole document". -/
theorem layout_eager_shape_counterexample :
    ((widgetLayout bigEditor).2.buffer.lines.all
        fun l => l.layout_opt.isSome) = true ∧
    totalSubLines (widgetLayout bigEditor).2.buffer.lines = 12 := by
  constructor <;> decide

/-- Claim C7 as amended: `layout` estimates the content height by calling
`shape_until` with `line_limit = i32::MAX = 2147483647`; consequently
any document whose stale lines would produce at most that many visual
sub-lines — every representable document — is shaped in full, eagerly,
during layout. -/
theorem layout_shape_until_max (e : Editor)
    (h : (pendingSubLines e.buffer.width e.buffer.lines : Int) ≤ 2147483647) :
    ∀ l ∈ (widgetLayout e).2.buffer.lines, l.layout_opt.isSome := by
  intro l hl
  refine shapeUntilGo_all_shaped e.buffer.width 2147483647 e.buffer.lines 0
    (by omega) l ?_
  simpa [widgetLayout, Buffer.shape_until] using hl

theorem layout_shape_until_max_witness :
    (pendingSubLines bigEditor.buffer.width bigEditor.buffer.lines : Int)
        ≤ 2147483647 ∧
    ∀ l ∈ (widgetLayout bigEditor).2.buffer.lines, l.layout_opt.isSome :=
  ⟨by decide, layout_shape_until_max bigEditor (by decide)⟩

theorem set_size_width (b : Buffer) (w h : Int) : (b.set_size w h).width = w := by
  unfold Buffer.set_size
  split
  · next heq => simp [heq]
  · rfl

theorem set_size_height (b : Buffer) (w h : Int) : (b.set_size w h).height = h := by
  unfold Buffer.set_size
  split <;> rfl

/-- After the `shape_as_needed` walk over a window, no line of that
window is stale. -/
theorem staleReadsGo_shapeWindowGo (w lo hi : Int) (ls : List Line) :
    ∀ i, staleReadsGo lo hi i (shapeWindowGo w lo hi i ls) = false := by
  induction ls with
  | nil => intro i; rfl
  | cons l ls ih =>
    intro i
    simp only [shapeWindowGo, staleReadsGo]
    rw [ih]
    cases h : l.layout_opt with
    | some lay => simp [h]
    | none =>
      by_cases hw : lo ≤ i ∧ i < hi
      · simp [h, hw]
      · rcases not_and_or.mp hw with h1 | h1 <;> simp [h, h1, hw]

/-- The buffer the primitive-emission pass of `widgetDraw` reads (and
the one it leaves in the editor): the resized, re-shaped buffer. -/
theorem widgetDraw_buffer (e : Editor) (bounds viewport : Rect) :
    (widgetDraw e bounds viewport).editor.buffer =
      (e.buffer.set_size
        (min (f32_as_i32 viewport.width) (f32_as_i32 bounds.width))
        (min (f32_as_i32 viewport.height) (f32_as_i32 bounds.height))).shape_as_needed :=
  rfl

theorem widgetDraw_buffer_width (e : Editor) (bounds viewport : Rect) :
    (widgetDraw e bounds viewport).editor.buffer.width =
      min (f32_as_i32 viewport.width) (f32_as_i32 bounds.width) := by
  rw [widgetDraw_buffer]
  exact set_size_width _ _ _

theorem widgetDraw_buffer_height (e : Editor) (bounds viewport : Rect) :
    (widgetDraw e bounds viewport).editor.buffer.height =
      min (f32_as_i32 viewport.height) (f32_as_i32 bounds.height) := by
  rw [widgetDraw_buffer]
  exact set_size_height _ _ _

/-- Claim C6: the buffer state read by the primitive-emission pass of
`draw` has its size already set to the minimum of the viewport and
layout-bounds dimensions, and no line of the visible window is stale —
`set_size` and `shape_as_needed` run before any primitive is emitted,
and `widgetDraw` folds the callback over the primitives of exactly this
re-shaped buffer. -/
theorem draw_resizes_and_shapes_first (e : Editor) (bounds viewport : Rect) :
    (widgetDraw e bounds viewport).editor.buffer.width =
      min (f32_as_i32 viewport.width) (f32_as_i32 bounds.width) ∧
    (widgetDraw e bounds viewport).editor.buffer.height =
      min (f32_as_i32 viewport.height) (f32_as_i32 bounds.height) ∧
    (widgetDraw e bounds viewport).editor.buffer.staleReads = false := by
  refine ⟨widgetDraw_buffer_width e bounds viewport,
    widgetDraw_buffer_height e bounds viewport, ?_⟩
  rw [widgetDraw_buffer]
  simp [Buffer.staleReads, Buffer.shape_as_needed, Buffer.windowLo,
    Buffer.windowHi, Buffer.visibleLines, staleReadsGo_shapeWindowGo]

/-- The `shape_as_needed` walk is idempotent: a second pass over an
already-shaped window changes nothing. -/
theorem shapeWindowGo_idem (w lo hi : Int) (ls : List Line) :
    ∀ i, shapeWindowGo w lo hi i (shapeWindowGo w lo hi i ls) =
      shapeWindowGo w lo hi i ls := by
  induction ls with
  | nil => intro i; rfl
  | cons l ls ih =>
    intro i
    simp only [shapeWindowGo]
    rw [ih]
    cases h : l.layout_opt with
    | some lay => simp [h]
    | none =>
      by_cases hw : lo ≤ i ∧ i < hi
      · simp [h, hw]
      · simp [h, hw]

theorem shape_as_needed_idem (b : Buffer) :
    b.shape_as_needed.shape_as_needed = b.shape_as_needed := by
  unfold Buffer.shape_as_needed
  simp [Buffer.windowLo, Buffer.windowHi, Buffer.visibleLines,
    shapeWindowGo_idem]

/-- Setting the size a buffer already has changes nothing. -/
theorem set_size_same (b : Buffer) (w h : Int) (hw : b.width = w)
    (hh : b.height = h) : b.set_size w h = b := by
  subst hw; subst hh
  unfold Buffer.set_size
  rw [if_pos rfl]

/-- The buffer mutation performed by `draw` (resize then re-shape) is a
fixed point of a second `draw` call with the same bounds and viewport. -/
theorem widgetDraw_stable (e : Editor) (bounds viewport : Rect) :
    (widgetDraw (widgetDraw e bounds viewport).editor bounds viewport).editor.buffer
      = (widgetDraw e bounds viewport).editor.buffer := by
  rw [widgetDraw_buffer ((widgetDraw e bounds viewport).editor) bounds viewport]
  rw [set_size_same _ _ _ (widgetDraw_buffer_width e bounds viewport)
      (widgetDraw_buffer_height e bounds viewport)]
  rw [widgetDraw_buffer]
  exact shape_as_needed_idem _

/-- The quads emitted by `widgetDraw`, expressed through the buffer it
leaves behind. -/
theorem widgetDraw_quads (e : Editor) (bounds viewport : Rect) :
    (widgetDraw e bounds viewport).quads =
      ((widgetDraw e bounds viewport).editor.buffer.emitPrims.foldl
        (callbackStep bounds.x bounds.y
          (min (f32_as_i32 viewport.width) (f32_as_i32 bounds.width))
          (min (f32_as_i32 viewport.height) (f32_as_i32 bounds.height)))
        ⟨[], List.replicate
          ((min (f32_as_i32 viewport.width) (f32_as_i32 bounds.width)).toNat *
            (min (f32_as_i32 viewport.height) (f32_as_i32 bounds.height)).toNat * 4)
          0⟩).quads :=
  rfl

/-- The pixel buffer produced by `widgetDraw`, expressed through the
buffer it leaves behind. -/
theorem widgetDraw_pixels (e : Editor) (bounds viewport : Rect) :
    (widgetDraw e bounds viewport).pixels =
      ((widgetDraw e bounds viewport).editor.buffer.emitPrims.foldl
        (callbackStep bounds.x bounds.y
          (min (f32_as_i32 viewport.width) (f32_as_i32 bounds.width))
          (min (f32_as_i32 viewport.height) (f32_as_i32 bounds.height)))
        ⟨[], List.replicate
          ((min (f32_as_i32 viewport.width) (f32_as_i32 bounds.width)).toNat *
            (min (f32_as_i32 viewport.height) (f32_as_i32 bounds.height)).toNat * 4)
          0⟩).pixels :=
  rfl

/-- Claim C8: for fixed layout bounds and viewport, a second consecutive
`draw` call emits exactly the same quads in the same order and produces
exactly the same pixel buffer as the first — the only mutation `draw`
performs (resizing and re-shaping the buffer) does not change the output
of the repeated call. -/
theorem draw_repeat_identical (e : Editor) (bounds viewport : Rect) :
    (widgetDraw (widgetDraw e bounds viewport).editor bounds viewport).quads =
      (widgetDraw e bounds viewport).quads ∧
    (widgetDraw (widgetDraw e bounds viewport).editor bounds viewport).pixels =
      (widgetDraw e bounds viewport).pixels := by
  constructor
  · rw [widgetDraw_quads ((widgetDraw e bounds viewport).editor) bounds viewport,
      widgetDraw_stable, widgetDraw_quads e bounds viewport]
  · rw [widgetDraw_pixels ((widgetDraw e bounds viewport).editor) bounds viewport,
      widgetDraw_stable, widgetDraw_pixels e bounds viewport]

end SyntaxTextBox
